import Mathlib

/-!
A shallow embedding of `resources/lib/sky.py` (the `SkyShowtime` class of the
plugin.video.skyott Kodi add-on), together with theorems checking the
natural-language specification against it.

Conventions used throughout:
* Python dict keys that may be absent are modelled as `Option` fields;
  Python `None` and an absent key are both `none` unless a claim depends on
  the difference (then the raising behaviour is modelled with `Except`).
* Python truthiness of strings (`if url:`) is modelled by `truthy`, which is
  false exactly for `None` and the empty string.
* Machine integers are `Int`/`Nat`; epoch timestamps are `Int` seconds.
* The collaborator modules that are not part of the given source tree
  (`cache.py`, `timeconv.py`, the network and signature helpers) are either
  modelled from the spec (the TTL cache, marked below) or abstracted as
  function parameters (`timestamp2str`), never invented.
-/

/-- Python truthiness for an optional string: `None` and `''` are falsy. -/
def truthy : Option String → Bool
  | none => false
  | some s => !s.isEmpty

/-- A profile entry as built by `get_profiles` and persisted by
`select_default_profile` / `change_profile` (`profile.json`). -/
structure Profile where
  id : String
  name : String
  type_ : String
  avatar : String
  deriving Repr, DecidableEq

/-- A token-service response, as consumed by `SkyShowtime.__init__` lines
159-171: the only fields the code inspects are `userToken` and
`description`, each possibly absent. -/
structure TokenResp where
  userToken : Option String := none
  description : Option String := none
  deriving Repr, DecidableEq

/-- The payload stored in one cache file. -/
inductive FileData where
  | text (s : String)
  | profileD (p : Profile)
  | tokenD (t : TokenResp)
  deriving Repr, DecidableEq

/-- The persistent key-value store backing the cache: a list of
`(path, write-timestamp, payload)` bindings with at most one binding per
path (insert replaces). -/
abbrev CacheStore := List (String × Nat × FileData)

/-- Raw binding lookup in the store. -/
def storeLookup (st : CacheStore) (key : String) : Option (Nat × FileData) :=
  match st with
  | [] => none
  | (k, t, v) :: rest => if k = key then some (t, v) else storeLookup rest key

/-- Modelled from the spec: `Cache.load` (`resources/lib/cache.py` is not
under `src/`; §4.2 of the spec defines it).  `load(key, ttl)` returns the
entry iff `now - write_timestamp < ttl`; `load(key)` with no TTL returns the
entry unconditionally while present.  A missing key is a normal absent
result. -/
def cache_load (st : CacheStore) (key : String) (ttl : Option Nat) (now : Nat) :
    Option FileData :=
  match storeLookup st key with
  | none => none
  | some (t, v) =>
    match ttl with
    | none => some v
    | some d => if now - t < d then some v else none

/-- Modelled from the spec: `Cache.save`/`save_json`/`save_file` write the
payload under the key with the current write timestamp, replacing any
previous binding. -/
def cache_save (st : CacheStore) (key : String) (now : Nat) (v : FileData) :
    CacheStore :=
  match st with
  | [] => [(key, now, v)]
  | (k, t, w) :: rest =>
    if k = key then (key, now, v) :: rest else (k, t, w) :: cache_save rest key now v

/-- Modelled from the spec: `Cache.remove_file` deletes the binding for the
key (a path holds at most one file); removing a missing key is not an
error. -/
def remove_file (st : CacheStore) (key : String) : CacheStore :=
  match st with
  | [] => []
  | (k, t, w) :: rest =>
    if k = key then remove_file rest key else (k, t, w) :: remove_file rest key

/-- The seven per-platform files deleted by `SkyShowtime.clear_session`
(sky.py line 977). -/
def session_files : List String :=
  ["device_id.conf", "localisation.json", "profile.json", "profile_info.json",
   "token.json", "menu.json", "me.json"]

/-- `SkyShowtime.clear_session` (sky.py lines 976-979): removes each of the
seven session files under the platform directory. -/
def clear_session (pldir : String) (st : CacheStore) : CacheStore :=
  session_files.foldl (fun s f => remove_file s (pldir ++ "/" ++ f)) st

/-- The outcome of the token-acquisition step of `SkyShowtime.__init__`:
the store afterwards, the session's `user_token`, the session-level
`get_token_error` advisory string, and whether a mint call
(`get_tokens`) happened. -/
structure TokenStepResult where
  store : CacheStore
  user_token : Option String
  get_token_error : String
  minted : Bool
  deriving Repr, DecidableEq

/-- The token-acquisition step of `SkyShowtime.__init__` (sky.py lines
159-171): load `token.json` through the cache with a 60-second TTL; on a
miss call `get_tokens` (its response is the `mint` argument), cache the
response only when it carries `userToken`, and retain `description` (when
present) as the advisory error; finally adopt `userToken` as the session
user token when present (`account['user_token']` starts as `None` and
`get_token_error` as `''`).  The step is a total function: no path
raises. -/
def token_bootstrap (pldir : String) (st : CacheStore) (now : Nat) (mint : TokenResp) :
    TokenStepResult :=
  match cache_load st (pldir ++ "/" ++ "token.json") (some 60) now with
  | some (.tokenD data) =>
    { store := st, user_token := data.userToken, get_token_error := "", minted := false }
  | _ =>
    let data := mint
    let st₂ :=
      if data.userToken.isSome then
        cache_save st (pldir ++ "/" ++ "token.json") now (.tokenD data)
      else st
    { store := st₂,
      user_token := data.userToken,
      get_token_error := (data.description).getD "",
      minted := true }

/-- The `x-skyott-*` header fields of `platform['headers']` (sky.py lines
31-40 and 46-55) that the embedded logic reads or writes.  Values are
optional: a localisation update can set a header to Python `None`
(`h.get(...)` of a missing key, sky.py lines 124-128). -/
structure Headers where
  activeterritory : Option String
  client_version : Option String := some "4.3.12"
  device : Option String := some "MOBILE"
  language : Option String
  platform_ : Option String := some "ANDROID"
  proposition : Option String
  provider : Option String
  territory : Option String
  deriving Repr, DecidableEq

/-- The default header set of the `skyshowtime` deployment (sky.py lines
31-40). -/
def skyshowtime_headers : Headers :=
  { activeterritory := some "ES", language := some "en-US",
    proposition := some "SKYSHOWTIME", provider := some "SKYSHOWTIME",
    territory := some "ES" }

/-- The default header set of the `peacocktv` deployment (sky.py lines
46-55). -/
def peacocktv_headers : Headers :=
  { activeterritory := some "US", language := some "en",
    proposition := some "NBCUOTT", provider := some "NBCU",
    territory := some "US" }

/-- The body of the signed `get_tokens` POST (sky.py lines 543-558). -/
structure TokensPost where
  authScheme : String
  authIssuer : String
  provider : Option String
  providerTerritory : Option String
  proposition : Option String
  personaId : Option String
  deviceType : String
  devicePlatform : String
  deviceId : Option String
  drmDeviceId : String
  deriving Repr, DecidableEq

/-- `SkyShowtime.get_tokens`, request-body construction (sky.py lines
543-558): the mint is keyed to the provider/territory/proposition headers,
the selected persona id and the device identity. -/
def get_tokens_post (headers : Headers) (device_id : Option String)
    (profile_id : Option String) : TokensPost :=
  { authScheme := "MESSO", authIssuer := "NOWTV",
    provider := headers.provider, providerTerritory := headers.territory,
    proposition := headers.proposition, personaId := profile_id,
    deviceType := "COMPUTER", devicePlatform := "PC",
    deviceId := device_id, drmDeviceId := "UNKNOWN" }

/-- The profile-selection load of `SkyShowtime.__init__` (sky.py lines
138-145): read the persisted `profile.json`; when present the session's
profile id and type come from it (when absent, `select_default_profile`
would fetch the list and persist its first entry instead). -/
def load_profile_selection (pldir : String) (st : CacheStore) : Option Profile :=
  match cache_load st (pldir ++ "/" ++ "profile.json") none 0 with
  | some (.profileD p) => some p
  | _ => none

/-- The three profile-scoped cache files invalidated by `change_profile`
(sky.py line 457). -/
def profile_scoped_files : List String :=
  ["profile_info.json", "token.json", "menu.json"]

/-- `SkyShowtime.change_profile` (sky.py lines 452-462): look the id up in
the freshly fetched profile list; on the first match persist that profile
as the new selection and remove the three profile-scoped cache files;
without a match the store is left untouched (only a diagnostic is
logged). -/
def change_profile (pldir : String) (profiles : List Profile) (id : String)
    (now : Nat) (st : CacheStore) : CacheStore :=
  match profiles.find? (fun p => p.id == id) with
  | some p =>
    profile_scoped_files.foldl (fun s f => remove_file s (pldir ++ "/" ++ f))
      (cache_save st (pldir ++ "/" ++ "profile.json") now (.profileD p))
  | none => st

/-- Replace every non-overlapping occurrence of `pat` (non-empty) in the
list, scanning left to right; the fuel argument (instantiated with the
list length) makes the recursion structural so that it evaluates inside
the kernel. -/
def replaceFuel (pat repl : List Char) : Nat → List Char → List Char
  | 0, s => s
  | fuel + 1, s =>
    match s with
    | [] => []
    | c :: rest =>
      if pat ≠ [] ∧ pat.isPrefixOf (c :: rest) then
        repl ++ replaceFuel pat repl fuel ((c :: rest).drop pat.length)
      else c :: replaceFuel pat repl fuel rest

/-- Python `str.replace(pat, repl)` for a non-empty pattern: replace every
non-overlapping occurrence, scanning left to right. -/
def pyReplace (s pat repl : String) : String :=
  String.mk (replaceFuel pat.data repl.data s.data.length s.data)

/-- One image record of an `images` list: a `type` discriminator and a
`url`. -/
structure Image where
  type_ : String
  url : String
  deriving Repr, DecidableEq

/-- The art set built by `SkyShowtime.get_art` (sky.py line 198 plus the
`clearlogo` key added when a `titleLogo` image appears).  A `none` is
Python `None` or, for `clearlogo`, an absent key. -/
structure Art where
  icon : Option String := none
  poster : Option String := none
  fanart : Option String := none
  thumb : Option String := none
  clearlogo : Option String := none
  deriving Repr, DecidableEq

/-- `image_url` inside `get_art` (sky.py lines 195-196): insert the fixed
resolution selector before the query string. -/
def image_url (url : String) : String :=
  pyReplace url "?language" "/400?language"

/-- The loop state of `get_art`: the art dict plus the `title34` /
`nontitle34` locals. -/
structure ArtState where
  art : Art
  title34 : Option String := none
  nontitle34 : Option String := none
  deriving Repr, DecidableEq

/-- One iteration of the `get_art` loop (sky.py lines 200-215): dispatch
on the image type, then — still inside the loop — fill a missing poster
from `title34`, then from `nontitle34`, and a missing thumb from the
poster.  Missing is Python falsy (`None` or `''`). -/
def get_art_step (st : ArtState) (i : Image) : ArtState :=
  let st :=
    if i.type_ = "titleArt34" then { st with title34 := some (image_url i.url) }
    else if i.type_ = "nonTitleArt34" then { st with nontitle34 := some (image_url i.url) }
    else if i.type_ = "titleArt169" then { st with art.poster := some (image_url i.url) }
    else if i.type_ = "landscape" then { st with art.fanart := some (image_url i.url) }
    else if i.type_ = "titleLogo" then { st with art.clearlogo := some (image_url i.url) }
    else if i.type_ = "scene169" then { st with art.thumb := some (image_url i.url) }
    else st
  let st := if truthy st.title34 && !(truthy st.art.poster) then
    { st with art.poster := st.title34 } else st
  let st := if truthy st.nontitle34 && !(truthy st.art.poster) then
    { st with art.poster := st.nontitle34 } else st
  if !(truthy st.art.thumb) then { st with art.thumb := st.art.poster } else st

/-- `SkyShowtime.get_art` (sky.py lines 194-216). -/
def get_art (images : List Image) : Art :=
  (images.foldl get_art_step { art := {} }).art

/-- A singleton image list when the url is supplied, used to build image
lists type by type. -/
def optImg (ty : String) : Option String → List Image
  | none => []
  | some u => [{ type_ := ty, url := u }]

/-- `SkyShowtime.is_subscribed` (sky.py lines 189-192): true iff some
session entitlement segment appears in the item's segment list. -/
def is_subscribed (my_segments segments : List String) : Bool :=
  my_segments.any (fun s => segments.contains s)

/-- One sub-genre record of a genre group (`{'title': ...}`). -/
structure SubGenre where
  title : String
  deriving Repr, DecidableEq

/-- One genre group of a `genreList`, as probed by `get_genres` (sky.py
lines 218-223): an optional `subgenre` list. -/
structure Genre where
  subgenre : Option (List SubGenre) := none
  deriving Repr, DecidableEq

/-- `SkyShowtime.get_genres` (sky.py lines 218-223): only the first
sub-genre title of each group, groups without sub-genres skipped. -/
def get_genres (genres : List Genre) : List String :=
  genres.filterMap (fun d =>
    match d.subgenre with
    | some (g :: _) => some g.title
    | _ => none)

/-- The `linkInfo` sub-object of a `CATALOGUE/LINK` rail entry (sky.py
lines 242-244). -/
structure LinkInfo where
  slug : String
  nodeId : String
  deriving Repr, DecidableEq

/-- The `duration` sub-object of a rail entry (sky.py line 253). -/
structure DurationObj where
  durationSeconds : Int
  deriving Repr, DecidableEq

/-- A rail/catalog record as consumed by `parse_catalog` (sky.py lines
225-278).  Keys the code requires unconditionally in the branches that
read them (`id`, `title`, `images`, `genreList`) are plain fields; every
key probed with `in`/`.get` is an `Option`. -/
structure RawCatalogEntry where
  id : String
  slug : Option String := none
  title : String
  type_ : String
  displayStartTime : Option Int := none
  contentSegments : Option (List String) := none
  linkInfo : Option LinkInfo := none
  linkId : Option String := none
  year : Option Int := none
  duration : Option DurationObj := none
  durationSeconds : Option Int := none
  ottCertificate : Option String := none
  synopsisLong : Option String := none
  images : List Image := []
  genreList : List Genre := []
  seriesName : Option String := none
  seasonNumber : Option Int := none
  number : Option Int := none
  streamPosition : Option Int := none
  deriving Repr, DecidableEq

/-- The uniform media item built by `parse_catalog` / `parse_item`: the
Python dict `{'info': ..., 'art': ..., ...}` flattened, a `none` field
standing for an absent key. -/
structure Item where
  type_ : Option String := none
  id : String := ""
  slug : Option String := none
  title : Option String := none
  mediatype : Option String := none
  year : Option Int := none
  duration : Option Int := none
  mpaa : Option String := none
  plot : Option String := none
  tvshowtitle : Option String := none
  season : Option Int := none
  episode : Option Int := none
  genre : Option (List String) := none
  art : Art := {}
  segments : Option (List String) := none
  subscribed : Option Bool := none
  content_id : Option String := none
  provider_variant_id : Option String := none
  uuid : Option String := none
  stream_position : Option Int := none
  bookmark_startOfCredits : Option Int := none
  bookmark_providerSeriesId : Option String := none
  deriving Repr, DecidableEq

/-- The four playable-asset discriminators of `parse_catalog`
(sky.py line 248). -/
def catalog_asset_types : List String :=
  ["ASSET/PROGRAMME", "ASSET/SLE", "ASSET/SHORTFORM/CLIP", "ASSET/EPISODE"]

/-- One rail entry of `parse_catalog` (sky.py lines 225-278).  `t2s` is
the `timestamp2str` helper (resources/lib/timeconv.py, outside `src/`),
abstracted as a parameter; the millisecond epoch is passed down divided
by 1000.  A conditional `t[key] = value` of the source becomes an
unconditional optional-field write under the absent-key-is-`none`
convention; an entry of unsupported type, or a link entry without
`linkInfo`, yields `none` (dropped with a diagnostic). -/
def parse_catalog_entry (my : List String) (t2s : Int → String → String)
    (e : RawCatalogEntry) : Option Item :=
  let base : Item :=
    { id := e.id, slug := e.slug,
      title := some (match e.displayStartTime with
        | some ms =>
          "[COLOR yellow]" ++ t2s (ms / 1000) "%a %d %H:%M" ++ "[/COLOR] - " ++ e.title
        | none => e.title),
      segments := e.contentSegments,
      subscribed := e.contentSegments.map (is_subscribed my) }
  if e.type_ = "CATALOGUE/COLLECTION" then
    some { base with type_ := some "category" }
  else if e.type_ = "CATALOGUE/LINK" then
    match e.linkInfo with
    | some li =>
      some { base with type_ := some "category", slug := some li.slug, id := li.nodeId }
    | none => none
  else if e.type_ ∈ catalog_asset_types then
    some { base with
      type_ := some "movie",
      mediatype := some (if e.type_ = "ASSET/EPISODE" then "episode" else "movie"),
      year := e.year,
      duration := (match e.duration with
        | some d => some d.durationSeconds
        | none => e.durationSeconds),
      mpaa := e.ottCertificate,
      plot := e.synopsisLong,
      art := get_art e.images,
      genre := some (get_genres e.genreList),
      tvshowtitle := if e.type_ = "ASSET/EPISODE" then e.seriesName else none,
      season := if e.type_ = "ASSET/EPISODE" then e.seasonNumber else none,
      episode := if e.type_ = "ASSET/EPISODE" then e.number else none,
      stream_position := e.streamPosition }
  else if e.type_ = "CATALOGUE/SERIES" then
    some { base with
      type_ := some "series", mediatype := some "tvshow",
      mpaa := e.ottCertificate, plot := e.synopsisLong,
      art := get_art e.images, genre := some (get_genres e.genreList) }
  else none

/-- `SkyShowtime.parse_catalog` (sky.py lines 225-278): each recognised
entry yields one item, dropped entries none. -/
def parse_catalog (my : List String) (t2s : Int → String → String)
    (data : List RawCatalogEntry) : List Item :=
  data.filterMap (parse_catalog_entry my t2s)

/-- One media format entry of the `formats` map (sky.py lines 314-320):
a `contentId` (required where probed) and an optional start-of-credits
marker. -/
structure FormatInfo where
  contentId : String
  startOfCredits : Option Int := none
  deriving Repr, DecidableEq

/-- The `formats` map of a graph item: the code probes only the `HD` and
`SD` keys. -/
structure Formats where
  hd : Option FormatInfo := none
  sd : Option FormatInfo := none
  deriving Repr, DecidableEq

/-- The `attributes` sub-object of a relationship/graph record, covering
every key `parse_item` reads (sky.py lines 280-331). -/
structure Attributes where
  slug : String
  title : String
  images : List Image := []
  genres : List String := []
  synopsisLong : Option String := none
  seriesName : Option String := none
  seasonNumber : Option Int := none
  episodeNumber : Option Int := none
  durationSeconds : Option Int := none
  ottCertificate : Option String := none
  formats : Option Formats := none
  providerVariantId : Option String := none
  programmeUuid : Option String := none
  seriesUuid : Option String := none
  providerSeriesId : Option String := none
  contentSegments : Option (List String) := none
  deriving Repr, DecidableEq

/-- A relationship/graph record (`parse_item` input). -/
structure RawGraphItem where
  id : String
  type_ : String
  year : Option Int := none
  attributes : Attributes
  deriving Repr, DecidableEq

/-- The playable discriminators probed by `parse_item` (sky.py line
309). -/
def item_playable_types : List String :=
  ["ASSET/PROGRAMME", "ASSET/EPISODE", "ASSET/SLE", "ASSET/SHORTFORM/CLIP"]

/-- `SkyShowtime.parse_item` (sky.py lines 280-331).  Conditional
`t[key] = value` writes of the source become unconditional
optional-field writes (absent key = `none`): the `HD`-preferred content
id, the `HD` start-of-credits bookmark metadata, the
`programmeUuid`-then-`seriesUuid` uuid, the optional
`providerSeriesId`, and the segments with their derived `subscribed`
flag. -/
def parse_item (my : List String) (e : RawGraphItem) : Item :=
  let att := e.attributes
  let base : Item :=
    { id := e.id, slug := some att.slug, title := some att.title,
      art := get_art att.images, genre := some att.genres }
  let t :=
    if e.type_ = "CATALOGUE/SERIES" then
      { base with
        type_ := some "series", mediatype := some "tvshow",
        plot := att.synopsisLong }
    else if e.type_ = "CATALOGUE/SEASON" then
      { base with
        type_ := some "season", mediatype := some "season",
        tvshowtitle := att.seriesName, season := att.seasonNumber }
    else if e.type_ = "ASSET/EPISODE" then
      { base with
        type_ := some "movie", mediatype := some "episode",
        tvshowtitle := att.seriesName, season := att.seasonNumber,
        episode := att.episodeNumber }
    else if e.type_ = "ASSET/PROGRAMME" then
      { base with type_ := some "movie", mediatype := some "movie", year := e.year }
    else base
  let t :=
    if e.type_ ∈ item_playable_types then
      { t with
        plot := att.synopsisLong,
        duration := att.durationSeconds,
        mpaa := att.ottCertificate,
        content_id := (match att.formats with
          | some f =>
            (match f.hd with
            | some h => some h.contentId
            | none =>
              (match f.sd with
              | some s => some s.contentId
              | none => none))
          | none => none),
        bookmark_startOfCredits := (match att.formats with
          | some f =>
            (match f.hd with
            | some h => h.startOfCredits
            | none => none)
          | none => none),
        provider_variant_id := att.providerVariantId }
    else t
  { t with
    uuid := att.programmeUuid.or att.seriesUuid,
    bookmark_providerSeriesId := att.providerSeriesId,
    segments := att.contentSegments,
    subscribed := att.contentSegments.map (is_subscribed my) }

/-- `SkyShowtime.parse_items` (sky.py lines 333-338). -/
def parse_items (my : List String) (data : List RawGraphItem) : List Item :=
  data.map (parse_item my)

/-- One attempt of the pattern `hterr=([A-Z]{2})` at the head of the
character list: the literal `hterr=` followed by two ASCII capitals
(`[A-Z]` over the cookie bytes). -/
def hterr_match_at : List Char → Option String
  | 'h' :: 't' :: 'e' :: 'r' :: 'r' :: '=' :: a :: b :: _ =>
    if a.isUpper && b.isUpper then some (String.mk [a, b]) else none
  | _ => none

/-- `re.search(b'hterr=([A-Z]{2})', cookie)` (sky.py line 109): the
leftmost match, scanning start positions left to right. -/
def hterr_search : List Char → Option String
  | [] => none
  | c :: rest =>
    match hterr_match_at (c :: rest) with
    | some code => some code
    | none => hterr_search rest

/-- The `headers` object of a localisation response (sky.py lines
122-128); each hint is read with `.get`, so each may be Python `None`. -/
structure LocHeaders where
  activeterritory : Option String
  language : Option String
  territory : Option String
  deriving Repr, DecidableEq

/-- The territory/localisation resolution of `SkyShowtime.__init__`
(sky.py lines 107-134): when no override is supplied, try to derive a
territory from the stored cookie (`hterr=` followed by two capitals);
apply the effective localisation hints over the platform defaults (`loc`
is `none` when neither the cached nor the freshly fetched response
carries a `headers` object); finally, when an override-or-cookie
territory exists it wins over `x-skyott-territory`, and it also replaces
`x-skyott-activeterritory` when that header is the wildcard `XX`. -/
def init_territory (defaults : Headers) (override : Option String)
    (cookie : Option String) (loc : Option LocHeaders) : Headers :=
  let territory :=
    match override with
    | some t => some t
    | none =>
      match cookie with
      | some ck => hterr_search ck.data
      | none => none
  let hs :=
    match loc with
    | some h =>
      { defaults with activeterritory := h.activeterritory,
                      language := h.language, territory := h.territory }
    | none => defaults
  match territory with
  | some t =>
    let hs₂ := { hs with territory := some t }
    if hs₂.activeterritory = some "XX" then { hs₂ with activeterritory := some t }
    else hs₂
  | none => hs

/-- Two concrete profiles for exercising `change_profile`. -/
def c9_profiles : List Profile :=
  [{ id := "pers-1", name := "Adult", type_ := "Standard", avatar := "a1" },
   { id := "pers-2", name := "Kid", type_ := "Kid", avatar := "a2" }]

/-- A concrete store before a profile switch: old selection, a fresh
token, a menu, profile info, and the cookie. -/
def c9_store : CacheStore :=
  [("skyshowtime/profile.json", 0,
    .profileD { id := "pers-1", name := "Adult", type_ := "Standard", avatar := "a1" }),
   ("skyshowtime/token.json", 5, .tokenD { userToken := some "oldtok" }),
   ("skyshowtime/menu.json", 0, .text "menu"),
   ("skyshowtime/profile_info.json", 0, .text "info"),
   ("skyshowtime/cookie.conf", 0, .text "ck")]

/-- A concrete store holding a device identity, a cookie and the saved
searches, used to exercise `clear_session`. -/
def c5_store : CacheStore :=
  [("skyshowtime/device_id.conf", 0, .text "k7fOq2ZpR1aB8cD3eF4g"),
   ("skyshowtime/cookie.conf", 0, .text "idsession=abc; hterr=ES"),
   ("searchs.json", 0, .text "[]")]

/-- The `data` sub-object of a raw EPG schedule item (sky.py lines
929-935). -/
structure RawSchedData where
  title : String
  description : Option String := none
  images : Option (List (String × String)) := none
  contentId : Option String := none
  providerVariantId : Option String := none
  deriving Repr, DecidableEq

/-- One raw EPG schedule item (sky.py lines 921-936). -/
structure RawSched where
  startTimeUTC : Int
  durationSeconds : Int
  data : RawSchedData
  deriving Repr, DecidableEq

/-- One raw EPG channel record (sky.py lines 871-886 and 918-921). -/
structure RawChannel where
  rank : Int
  name : String
  id : String
  serviceKey : String
  type_ : String
  images : Option (List Image) := none
  scheduleItems : List RawSched := []
  deriving Repr, DecidableEq

/-- A raw guide fetch (`download_epg` payload): its `channels` list. -/
structure RawEpg where
  channels : List RawChannel
  deriving Repr, DecidableEq

/-- Python `dict.get` over an images dictionary (label to url). -/
def pyGet (d : List (String × String)) (k : String) : Option String :=
  (d.find? (fun kv => kv.1 == k)).map (fun kv => kv.2)

/-- `find_image` inside `get_epg` (sky.py lines 907-914): first truthy url
among the labels `16-9`, `scene169`, `landscape`; a truthy result gets the
resolution selector inserted before the query string. -/
def find_image (data : List (String × String)) : Option String :=
  let u := pyGet data "16-9"
  let u := if truthy u then u else pyGet data "scene169"
  let u := if truthy u then u else pyGet data "landscape"
  if truthy u then u.map (fun s => pyReplace s "?" "/400?") else u

/-- One normalised schedule entry as built by `get_epg` (sky.py lines
923-936).  `stop` is the dict key `end` (a reserved word here);
`stop = start + durationSeconds`. -/
structure EpgEntry where
  start : Int
  stop : Int
  start_str : String
  stop_str : String
  date_str : String
  title : String
  plot : Option String := none
  duration : Int
  poster : Option String := none
  content_id : Option String := none
  provider_variant_id : Option String := none
  deriving Repr, DecidableEq

/-- The per-item body of the `get_epg` loop (sky.py lines 923-936).
`t2s1` / `t2s` abstract `timestamp2str` (timeconv.py, outside `src/`)
with the default and explicit format argument. -/
def epg_entry (t2s1 : Int → String) (t2s : Int → String → String) (i : RawSched) :
    EpgEntry :=
  { start := i.startTimeUTC,
    stop := i.startTimeUTC + i.durationSeconds,
    start_str := t2s1 i.startTimeUTC,
    stop_str := t2s1 (i.startTimeUTC + i.durationSeconds),
    date_str := t2s i.startTimeUTC "%a %d %H:%M",
    title := i.data.title,
    plot := i.data.description,
    duration := i.durationSeconds,
    poster := (match i.data.images with
      | some imgs => find_image imgs
      | none => none),
    content_id := i.data.contentId,
    provider_variant_id := i.data.providerVariantId }

/-- Python dict assignment `res[id] = v`: replace an existing binding in
place or append a new one. -/
def dictInsert {α : Type} (d : List (String × α)) (k : String) (v : α) :
    List (String × α) :=
  match d with
  | [] => [(k, v)]
  | (k₂, v₂) :: rest => if k₂ = k then (k, v) :: rest else (k₂, v₂) :: dictInsert rest k v

/-- Python dict lookup `d[k]` (first binding; `dictInsert` keeps bindings
unique), `none` standing for a `KeyError`. -/
def epgLookup {α : Type} (d : List (String × α)) (k : String) : Option α :=
  match d with
  | [] => none
  | (k₂, v) :: rest => if k₂ = k then some v else epgLookup rest k

/-- `SkyShowtime.get_epg` (sky.py lines 906-937): per service key, the
channel's schedule items normalised in order. -/
def get_epg (t2s1 : Int → String) (t2s : Int → String → String) (epg : RawEpg) :
    List (String × List EpgEntry) :=
  epg.channels.foldl
    (fun res c => dictInsert res c.serviceKey (c.scheduleItems.map (epg_entry t2s1 t2s)))
    []

/-- `SkyShowtime.find_program_epg` (sky.py lines 939-946).  `timestamp`
mirrors the optional Python argument (`None` or a number); a falsy
timestamp (`None` or `0`) is replaced by the current clock `now`
(`time.time()`).  A key missing from the index raises `KeyError`,
modelled as `Except.error`; a present key scans the channel's entries in
stored order for the first whose `[start, end]` interval contains the
timestamp inclusively, yielding `Except.ok none` when none does. -/
def find_program_epg (epg : List (String × List EpgEntry)) (service_key : String)
    (timestamp : Option Int) (now : Int) : Except String (Option EpgEntry) :=
  let ts : Int :=
    match timestamp with
    | some t => if t = 0 then now else t
    | none => now
  match epgLookup epg service_key with
  | none => Except.error "KeyError"
  | some entries =>
    Except.ok (entries.find? (fun p => decide (p.start ≤ ts) && decide (ts ≤ p.stop)))

/-- One channel item as built by `get_channels` (sky.py lines 868-887). -/
structure ChannelItem where
  type_ : String := "movie"
  stream_type : String := "tv"
  mediatype : String := "movie"
  dial : String
  title : String
  channel_name : String
  id : String
  service_key : String
  playcount : Int := 1
  art : Art := {}
  channel_type : String
  deriving Repr, DecidableEq

/-- `SkyShowtime.get_channels` (sky.py lines 868-887): one item per raw
channel of the same guide fetch `get_epg` indexes. -/
def get_channels (raw : RawEpg) : List ChannelItem :=
  raw.channels.map (fun c =>
    { dial := toString c.rank,
      title := toString c.rank ++ ". " ++ c.name,
      channel_name := c.name,
      id := c.id,
      service_key := c.serviceKey,
      art := (match c.images with
        | some imgs => get_art imgs
        | none => {}),
      channel_type := c.type_ })

/-- The only channel of the zero-timestamp guide: one programme spanning
`[-10, 10]`, so that interval contains timestamp `0`. -/
def c2_zero_channel : RawChannel :=
  { rank := 1, name := "Zero", id := "c-0", serviceKey := "ch", type_ := "linear",
    scheduleItems := [{ startTimeUTC := -10, durationSeconds := 20,
                        data := { title := "Prog" } }] }

/-- A concrete guide holding only `c2_zero_channel`. -/
def c2_zero_guide : RawEpg := { channels := [c2_zero_channel] }

/-- A channel `ch1` with two adjacent programmes, `A` on `[1000, 1060]`
and `B` on `[1060, 1120]`. -/
def epg_channel : RawChannel :=
  { rank := 1, name := "One", id := "c-1", serviceKey := "ch1", type_ := "linear",
    scheduleItems := [
      { startTimeUTC := 1000, durationSeconds := 60, data := { title := "A" } },
      { startTimeUTC := 1060, durationSeconds := 60, data := { title := "B" } }] }

/-- A concrete guide holding only `epg_channel`. -/
def epg_guide : RawEpg := { channels := [epg_channel] }

/-- A parsed JSON tree, as far as `login` inspects the response body. -/
inductive JValue where
  | null
  | bool (b : Bool)
  | num (n : Int)
  | str (s : String)
  | arr (xs : List JValue)
  | obj (fields : List (String × JValue))

/-- Python `dict.get(k)` over parsed object fields: `None` (here `none`)
when the key is absent. -/
def pyLookup (fields : List (String × JValue)) (k : String) : Option JValue :=
  match fields with
  | [] => none
  | (k₂, v) :: rest => if k₂ = k then some v else pyLookup rest k

/-- The test `... .get('eventType') == 'success'`: Python `==` against a
string literal is true only for that exact string value and raises
nothing for other values. -/
def isSuccessStr : Option JValue → Bool
  | some (.str s) => s == "success"
  | _ => false

/-- What `login` returns (sky.py lines 412-423): a `(success, raw-body)`
pair, or the implicit Python `None` when the function falls off the end
of the `try` block without returning. -/
inductive LoginReturn where
  | pair (success : Bool) (body : String)
  | noneReturn
  deriving Repr, DecidableEq

/-- `SkyShowtime.login`, response handling (sky.py lines 410-423).
`parsed` is the outcome of `json.loads` on the decoded body `content`;
`cookie_string` is the cookie jar joined into one string.  Paths:
a parse failure — or an `AttributeError` from calling `.get` on a
non-dict (`data` itself, or the default `[]`/non-dict `properties`
value) — is caught by the bare `except` and yields `(False, content)`;
a parsed dict whose `properties` dict carries `eventType == 'success'`
persists the cookie (no expiry; `save_file`) and yields
`(True, content)`; a parsed dict whose `properties` dict fails the
success test falls off the end of `try` and returns Python `None`. -/
def login (st : CacheStore) (pldir : String) (cookie_string : String)
    (content : String) (parsed : Except String JValue) : LoginReturn × CacheStore :=
  match parsed with
  | .error _ => (.pair false content, st)
  | .ok data =>
    match data with
    | .obj fields =>
      match (pyLookup fields "properties").getD (JValue.arr []) with
      | .obj props =>
        if isSuccessStr (pyLookup props "eventType") then
          (.pair true content,
           cache_save st (pldir ++ "/" ++ "cookie.conf") 0 (.text cookie_string))
        else (.noneReturn, st)
      | _ => (.pair false content, st)
    | _ => (.pair false content, st)

/-- A parsed login body whose `properties.eventType` is `success`. -/
def c6_success_body : Except String JValue :=
  Except.ok (JValue.obj [("properties", JValue.obj [("eventType", JValue.str "success")])])

/-- A parsed login body whose `properties.eventType` is `failed`. -/
def c6_failed_body : Except String JValue :=
  Except.ok (JValue.obj [("properties", JValue.obj [("eventType", JValue.str "failed")])])

/-- A trivial stand-in for the default-format `timestamp2str`. -/
def tf1 : Int → String := fun _ => ""

/-- A trivial stand-in for the explicit-format `timestamp2str`. -/
def tf2 : Int → String → String := fun _ _ => ""

/-- The normalised entry of `c2_zero_guide`: interval `[-10, 10]`. -/
def c2_zero_entry : EpgEntry :=
  epg_entry tf1 tf2 { startTimeUTC := -10, durationSeconds := 20,
                      data := { title := "Prog" } }

/-- The normalised `A` entry of `epg_guide`: interval `[1000, 1060]`. -/
def c2_entry_a : EpgEntry :=
  epg_entry tf1 tf2 { startTimeUTC := 1000, durationSeconds := 60,
                      data := { title := "A" } }

/-- The normalised `B` entry of `epg_guide`: interval `[1060, 1120]`. -/
def c2_entry_b : EpgEntry :=
  epg_entry tf1 tf2 { startTimeUTC := 1060, durationSeconds := 60,
                      data := { title := "B" } }

/-- The channel item `get_channels` builds for `epg_channel`. -/
def c10_channel_item : ChannelItem :=
  { dial := "1", title := "1. One", channel_name := "One", id := "c-1",
    service_key := "ch1", channel_type := "linear" }

/-- A concrete catalog entry carrying `contentSegments` (`{X, Y}`). -/
def c4_centry : RawCatalogEntry :=
  { id := "c1", title := "T", type_ := "CATALOGUE/COLLECTION",
    contentSegments := some ["X", "Y"] }

/-- A concrete playable graph item with both `HD` and `SD` formats. -/
def c8_hd_formats : Formats :=
  { hd := some { contentId := "HDID", startOfCredits := some 3500 },
    sd := some { contentId := "SDID" } }

def c8_hd_item : RawGraphItem :=
  { id := "v1", type_ := "ASSET/PROGRAMME",
    attributes := { slug := "/v1", title := "V1", formats := some c8_hd_formats } }

/-- A concrete playable graph item with only an `SD` format. -/
def c8_sd_item : RawGraphItem :=
  { id := "v2", type_ := "ASSET/EPISODE",
    attributes := { slug := "/v2", title := "V2",
                    formats := some { sd := some { contentId := "SDID2" } } } }

/-- A concrete playable graph item without a `formats` map. -/
def c8_bare_item : RawGraphItem :=
  { id := "v3", type_ := "ASSET/SLE",
    attributes := { slug := "/v3", title := "V3" } }

theorem storeLookup_remove (st : CacheStore) (key path : String) :
    storeLookup (remove_file st key) path =
      if path = key then none else storeLookup st path := by
  induction st with
  | nil => simp [remove_file, storeLookup]
  | cons kv rest ih =>
    obtain ⟨k, t, v⟩ := kv
    by_cases hk : k = key
    · subst hk
      by_cases hp : path = k
      · subst hp
        simp [remove_file, storeLookup, ih]
      · have hkp : ¬ k = path := fun h => hp h.symm
        simp [remove_file, storeLookup, hkp, hp, ih]
    · by_cases hp : k = path
      · subst hp
        by_cases hpk : k = key
        · exact absurd hpk hk
        · simp [remove_file, storeLookup, hk, hpk, ih]
      · simp [remove_file, storeLookup, hk, hp, ih]

theorem storeLookup_removeAll (files : List String) (pref : String) :
    ∀ st : CacheStore, ∀ path,
      storeLookup (files.foldl (fun s f => remove_file s (pref ++ "/" ++ f)) st) path =
        if files.any (fun f => path = pref ++ "/" ++ f) then none
        else storeLookup st path := by
  induction files with
  | nil => intro st path; simp
  | cons f rest ih =>
    intro st path
    rw [List.foldl_cons, ih, storeLookup_remove]
    by_cases hf : path = pref ++ "/" ++ f
    · simp [hf]
    · simp [hf]

/-- C5 counterexample: the claim says the session reset preserves the device
identity, but `clear_session` (sky.py line 977) lists `device_id.conf`
among the files it deletes.  On a store holding a device identity, the
identity is present before the reset and gone afterwards, so the next
startup cannot read the same identity back. -/
theorem c5_clear_session_counterexample :
    storeLookup c5_store "skyshowtime/device_id.conf" =
      some (0, .text "k7fOq2ZpR1aB8cD3eF4g")
    ∧ storeLookup (clear_session "skyshowtime" c5_store)
        "skyshowtime/device_id.conf" = none := by
  constructor
  · rfl
  · rfl

/-- C5 (amended): `clear_session` deletes exactly the seven session-derived
cache files (`device_id.conf`, `localisation.json`, `profile.json`,
`profile_info.json`, `token.json`, `menu.json`, `me.json`) under the
platform directory — the device identity included — and preserves every
other stored file, in particular the persisted cookie file and the saved
search list; after a reset the device identity is absent, so the next
startup generates a fresh one. -/
theorem c5_clear_session_frame (pldir : String) (st : CacheStore) :
    (∀ f, f ∈ session_files →
        storeLookup (clear_session pldir st) (pldir ++ "/" ++ f) = none)
    ∧ (∀ path, (∀ f ∈ session_files, path ≠ pldir ++ "/" ++ f) →
        storeLookup (clear_session pldir st) path = storeLookup st path) := by
  constructor
  · intro f hf
    rw [clear_session, storeLookup_removeAll]
    have h : (session_files.any fun f₂ => pldir ++ "/" ++ f = pldir ++ "/" ++ f₂) = true := by
      simp only [List.any_eq_true, decide_eq_true_eq]
      exact ⟨f, hf, rfl⟩
    simp [h]
  · intro path hp
    rw [clear_session, storeLookup_removeAll]
    have h : (session_files.any fun f₂ => path = pldir ++ "/" ++ f₂) = false := by
      simp only [List.any_eq_false, decide_eq_true_eq]
      exact fun f hf => hp f hf
    simp [h]

/-- C5 witness: on the concrete store, the reset removes the device
identity while the cookie file and the saved-search list keep their
contents. -/
theorem c5_clear_session_frame_witness :
    storeLookup (clear_session "skyshowtime" c5_store) "skyshowtime/device_id.conf" = none
    ∧ storeLookup (clear_session "skyshowtime" c5_store) "skyshowtime/cookie.conf" =
        storeLookup c5_store "skyshowtime/cookie.conf"
    ∧ storeLookup (clear_session "skyshowtime" c5_store) "searchs.json" =
        storeLookup c5_store "searchs.json" :=
  ⟨(c5_clear_session_frame "skyshowtime" c5_store).1 "device_id.conf" (by decide),
   (c5_clear_session_frame "skyshowtime" c5_store).2 "skyshowtime/cookie.conf" (by decide),
   (c5_clear_session_frame "skyshowtime" c5_store).2 "searchs.json" (by decide)⟩

theorem storeLookup_save (st : CacheStore) (key now v) (path : String) :
    storeLookup (cache_save st key now v) path =
      if path = key then some (now, v) else storeLookup st path := by
  induction st with
  | nil =>
    by_cases hp : path = key
    · subst hp; simp [cache_save, storeLookup]
    · have : ¬ key = path := fun h => hp h.symm
      simp [cache_save, storeLookup, hp, this]
  | cons kv rest ih =>
    obtain ⟨k, t, w⟩ := kv
    by_cases hk : k = key
    · subst hk
      by_cases hp : path = k
      · subst hp; simp [cache_save, storeLookup]
      · have : ¬ k = path := fun h => hp h.symm
        simp [cache_save, storeLookup, hp, this]
    · by_cases hp : k = path
      · subst hp
        simp [cache_save, storeLookup, hk]
      · simp [cache_save, storeLookup, hk, hp, ih]

/-- C7: a token response carrying `userToken` is cached and a second
bootstrap strictly within 60 seconds reuses it without minting again; a
response lacking `userToken` is never written to the cache, its
`description` is retained as the session-level advisory error, and the
session is left without a user token.  Both paths return normally (the
step is a total function). -/
theorem c7_token_cache (pldir : String) (st : CacheStore) (now now₂ : Nat)
    (mint mint₂ : TokenResp)
    (hmiss : storeLookup st (pldir ++ "/" ++ "token.json") = none) :
    (∀ u, mint.userToken = some u →
      (token_bootstrap pldir st now mint).minted = true
      ∧ (token_bootstrap pldir st now mint).user_token = some u
      ∧ (now ≤ now₂ → now₂ - now < 60 →
          (token_bootstrap pldir (token_bootstrap pldir st now mint).store now₂ mint₂).minted
            = false
          ∧ (token_bootstrap pldir (token_bootstrap pldir st now mint).store now₂ mint₂).user_token
            = some u
          ∧ (token_bootstrap pldir (token_bootstrap pldir st now mint).store now₂ mint₂).store
            = (token_bootstrap pldir st now mint).store))
    ∧ (mint.userToken = none →
        (token_bootstrap pldir st now mint).store = st
        ∧ (token_bootstrap pldir st now mint).user_token = none
        ∧ (token_bootstrap pldir st now mint).minted = true
        ∧ ∀ d, mint.description = some d →
            (token_bootstrap pldir st now mint).get_token_error = d) := by
  constructor
  · intro u hu
    have hload : cache_load st (pldir ++ "/" ++ "token.json") (some 60) now = none := by
      simp [cache_load, hmiss]
    have hstep : token_bootstrap pldir st now mint =
        { store := cache_save st (pldir ++ "/" ++ "token.json") now (.tokenD mint),
          user_token := some u, get_token_error := (mint.description).getD "",
          minted := true } := by
      simp [token_bootstrap, hload, hu]
    refine ⟨by rw [hstep], by rw [hstep], ?_⟩
    intro hle hlt
    have hload₂ : cache_load (token_bootstrap pldir st now mint).store
        (pldir ++ "/" ++ "token.json") (some 60) now₂ = some (.tokenD mint) := by
      rw [hstep]
      simp [cache_load, storeLookup_save, hlt]
    have hstep₂ : token_bootstrap pldir (token_bootstrap pldir st now mint).store now₂ mint₂ =
        { store := (token_bootstrap pldir st now mint).store,
          user_token := mint.userToken, get_token_error := "", minted := false } := by
      rw [token_bootstrap, hload₂]
    rw [hstep₂, hu]
    exact ⟨rfl, rfl, rfl⟩
  · intro hu
    have hload : cache_load st (pldir ++ "/" ++ "token.json") (some 60) now = none := by
      simp [cache_load, hmiss]
    have hstep : token_bootstrap pldir st now mint =
        { store := st, user_token := none,
          get_token_error := (mint.description).getD "", minted := true } := by
      simp [token_bootstrap, hload, hu]
    rw [hstep]
    refine ⟨rfl, rfl, rfl, ?_⟩
    intro d hd
    simp [hd]

/-- C7 witness: starting from an empty store, minting the response
`{userToken: "tok"}` at time 100 sets the token and a second bootstrap at
time 130 reuses it without minting; minting `{description: "No token"}`
leaves the store untouched, records the advisory error and sets no user
token. -/
theorem c7_token_cache_witness :
    (token_bootstrap "skyshowtime" [] 100 { userToken := some "tok" }).minted = true
    ∧ (token_bootstrap "skyshowtime" [] 100 { userToken := some "tok" }).user_token
        = some "tok"
    ∧ (token_bootstrap "skyshowtime"
        (token_bootstrap "skyshowtime" [] 100 { userToken := some "tok" }).store 130
        { userToken := some "t2" }).minted = false
    ∧ (token_bootstrap "skyshowtime"
        (token_bootstrap "skyshowtime" [] 100 { userToken := some "tok" }).store 130
        { userToken := some "t2" }).user_token = some "tok"
    ∧ (token_bootstrap "skyshowtime" [] 100 { description := some "No token" }).store = []
    ∧ (token_bootstrap "skyshowtime" [] 100 { description := some "No token" }).user_token
        = none
    ∧ (token_bootstrap "skyshowtime" [] 100
        { description := some "No token" }).get_token_error = "No token" := by
  have ha := (c7_token_cache "skyshowtime" [] 100 130 { userToken := some "tok" }
      { userToken := some "t2" } rfl).1 "tok" rfl
  have hb := (c7_token_cache "skyshowtime" [] 100 130 { description := some "No token" }
      { userToken := some "t2" } rfl).2 rfl
  have hc := ha.2.2 (by decide) (by decide)
  exact ⟨ha.1, ha.2.1, hc.1, hc.2.1, hb.1, hb.2.1, hb.2.2.2 "No token" rfl⟩

theorem string_append_ne (a : String) {b c : String} (h : b ≠ c) :
    a ++ b ≠ a ++ c := by
  intro he
  apply h
  have hd := congrArg String.data he
  simp only [String.data_append] at hd
  exact String.ext (List.append_cancel_left hd)

/-- C9: when the id matches a profile of the freshly fetched list,
`change_profile` persists the matched profile as the new selection,
removes exactly the three profile-scoped cache files (`profile_info.json`,
`token.json`, `menu.json`) and nothing else, so the next startup reads the
new selection back, a token-acquisition step must mint (the 60-second
token cache cannot serve), and the minted request's `personaId` is the
new profile id. -/
theorem c9_change_profile (pldir : String) (profiles : List Profile) (id : String)
    (now : Nat) (st : CacheStore) (p : Profile)
    (hfind : profiles.find? (fun q => q.id == id) = some p) :
    storeLookup (change_profile pldir profiles id now st)
        (pldir ++ "/" ++ "profile.json") = some (now, .profileD p)
    ∧ (∀ f, f ∈ profile_scoped_files →
        storeLookup (change_profile pldir profiles id now st) (pldir ++ "/" ++ f) = none)
    ∧ (∀ path, path ≠ pldir ++ "/" ++ "profile.json" →
        (∀ f ∈ profile_scoped_files, path ≠ pldir ++ "/" ++ f) →
        storeLookup (change_profile pldir profiles id now st) path = storeLookup st path)
    ∧ load_profile_selection pldir (change_profile pldir profiles id now st) = some p
    ∧ (∀ now₂ mint,
        (token_bootstrap pldir (change_profile pldir profiles id now st) now₂ mint).minted
          = true)
    ∧ (∀ hs device_id,
        (get_tokens_post hs device_id
          ((load_profile_selection pldir (change_profile pldir profiles id now st)).map
            (fun q => q.id))).personaId = some p.id) := by
  have hcp : change_profile pldir profiles id now st =
      profile_scoped_files.foldl (fun s f => remove_file s (pldir ++ "/" ++ f))
        (cache_save st (pldir ++ "/" ++ "profile.json") now (.profileD p)) := by
    rw [change_profile, hfind]
  have hprofany : (profile_scoped_files.any
      fun f => pldir ++ "/" ++ "profile.json" = pldir ++ "/" ++ f) = false := by
    simp only [profile_scoped_files, List.any_cons, List.any_nil,
      Bool.or_eq_false_iff, decide_eq_false_iff_not]
    exact ⟨string_append_ne _ (by decide), string_append_ne _ (by decide),
      string_append_ne _ (by decide), trivial⟩
  have hprof : storeLookup (change_profile pldir profiles id now st)
      (pldir ++ "/" ++ "profile.json") = some (now, .profileD p) := by
    rw [hcp, storeLookup_removeAll, hprofany]
    simp [storeLookup_save]
  refine ⟨hprof, ?_, ?_, ?_, ?_, ?_⟩
  · intro f hf
    rw [hcp, storeLookup_removeAll]
    have h : (profile_scoped_files.any fun f₂ => pldir ++ "/" ++ f = pldir ++ "/" ++ f₂)
        = true := by
      simp only [List.any_eq_true, decide_eq_true_eq]
      exact ⟨f, hf, rfl⟩
    simp [h]
  · intro path hp hp3
    rw [hcp, storeLookup_removeAll]
    have h : (profile_scoped_files.any fun f₂ => path = pldir ++ "/" ++ f₂) = false := by
      simp only [List.any_eq_false, decide_eq_true_eq]
      exact fun f hf => hp3 f hf
    rw [storeLookup_save]
    simp [h, hp]
  · rw [load_profile_selection, cache_load, hprof]
  · intro now₂ mint
    have htok : storeLookup (change_profile pldir profiles id now st)
        (pldir ++ "/" ++ "token.json") = none := by
      rw [hcp, storeLookup_removeAll]
      have h : (profile_scoped_files.any
          fun f₂ => pldir ++ "/" ++ "token.json" = pldir ++ "/" ++ f₂) = true := by
        simp only [List.any_eq_true, decide_eq_true_eq]
        exact ⟨"token.json", by decide, rfl⟩
      simp [h]
    have hload : cache_load (change_profile pldir profiles id now st)
        (pldir ++ "/" ++ "token.json") (some 60) now₂ = none := by
      simp [cache_load, htok]
    rw [token_bootstrap, hload]
  · intro hs device_id
    have hsel : load_profile_selection pldir (change_profile pldir profiles id now st)
        = some p := by
      rw [load_profile_selection, cache_load, hprof]
    rw [hsel]
    rfl

/-- C9 witness: switching to `pers-2` on the concrete store persists the
Kid profile, clears the three profile-scoped caches, keeps the cookie,
and the next token mint carries `personaId = pers-2`. -/
theorem c9_change_profile_witness :
    storeLookup (change_profile "skyshowtime" c9_profiles "pers-2" 40 c9_store)
        ("skyshowtime" ++ "/" ++ "profile.json") =
      some (40, .profileD { id := "pers-2", name := "Kid", type_ := "Kid", avatar := "a2" })
    ∧ storeLookup (change_profile "skyshowtime" c9_profiles "pers-2" 40 c9_store)
        ("skyshowtime" ++ "/" ++ "token.json") = none
    ∧ storeLookup (change_profile "skyshowtime" c9_profiles "pers-2" 40 c9_store)
        "skyshowtime/cookie.conf" = storeLookup c9_store "skyshowtime/cookie.conf"
    ∧ (∀ now₂ mint,
        (token_bootstrap "skyshowtime"
          (change_profile "skyshowtime" c9_profiles "pers-2" 40 c9_store) now₂ mint).minted
          = true)
    ∧ (get_tokens_post skyshowtime_headers (some "k7fOq2ZpR1aB8cD3eF4g")
        ((load_profile_selection "skyshowtime"
          (change_profile "skyshowtime" c9_profiles "pers-2" 40 c9_store)).map
          (fun q => q.id))).personaId = some "pers-2" := by
  have h := c9_change_profile "skyshowtime" c9_profiles "pers-2" 40 c9_store
    { id := "pers-2", name := "Kid", type_ := "Kid", avatar := "a2" } (by decide)
  exact ⟨h.1, h.2.1 "token.json" (by decide), h.2.2.1 "skyshowtime/cookie.conf"
    (by decide) (by decide), h.2.2.2.2.1,
    h.2.2.2.2.2 skyshowtime_headers (some "k7fOq2ZpR1aB8cD3eF4g")⟩

/-- C1: territory precedence at session initialisation.  An explicit
override `C` always yields `x-skyott-territory = C`, and when the
localisation response delivers the wildcard active territory `XX` the
override also replaces `x-skyott-activeterritory`; without an override, a
cookie-embedded `hterr=` two-capital code wins; without either, the
territory delivered by the localisation response stands. -/
theorem c1_territory_precedence (defaults : Headers) (override cookie : Option String)
    (loc : Option LocHeaders) :
    (∀ C, override = some C →
      (init_territory defaults override cookie loc).territory = some C
      ∧ (∀ lh, loc = some lh → lh.activeterritory = some "XX" →
          (init_territory defaults override cookie loc).activeterritory = some C))
    ∧ (∀ ck code, override = none → cookie = some ck →
        hterr_search ck.data = some code →
        (init_territory defaults override cookie loc).territory = some code)
    ∧ (∀ lh, override = none → loc = some lh →
        (cookie = none ∨ (∀ ck, cookie = some ck → hterr_search ck.data = none)) →
        (init_territory defaults override cookie loc).territory = lh.territory) := by
  refine ⟨?_, ?_, ?_⟩
  · intro C hC
    subst hC
    constructor
    · cases loc <;> simp [init_territory] <;> split <;> rfl
    · intro lh hlh hXX
      subst hlh
      simp [init_territory, hXX]
  · intro ck code hov hck hcode
    subst hov; subst hck
    cases loc <;> simp [init_territory, hcode] <;> split <;> rfl
  · intro lh hov hlh hck
    subst hov; subst hlh
    rcases hck with hnone | hfail
    · subst hnone
      simp [init_territory]
    · rcases cookie with _ | ck
      · simp [init_territory]
      · have h := hfail ck rfl
        simp [init_territory, h]

/-- C1 witness: with defaults `ES`, a cookie carrying `hterr=GB`, a
localisation response `{activeterritory: XX, territory: RS}` and an
explicit override `PT`, the territory is `PT` and the wildcard active
territory is replaced by `PT`; without the override the cookie's `GB`
wins; without a cookie the localisation's `RS` stands. -/
theorem c1_territory_precedence_witness :
    (init_territory skyshowtime_headers (some "PT") (some "idsession=xyz; hterr=GB")
      (some { activeterritory := some "XX", language := some "en",
              territory := some "RS" })).territory = some "PT"
    ∧ (init_territory skyshowtime_headers (some "PT") (some "idsession=xyz; hterr=GB")
      (some { activeterritory := some "XX", language := some "en",
              territory := some "RS" })).activeterritory = some "PT"
    ∧ (init_territory skyshowtime_headers none (some "idsession=xyz; hterr=GB")
      (some { activeterritory := some "XX", language := some "en",
              territory := some "RS" })).territory = some "GB"
    ∧ (init_territory skyshowtime_headers none none
      (some { activeterritory := some "XX", language := some "en",
              territory := some "RS" })).territory = some "RS" := by
  have h1 := c1_territory_precedence skyshowtime_headers (some "PT")
    (some "idsession=xyz; hterr=GB")
    (some { activeterritory := some "XX", language := some "en", territory := some "RS" })
  have h2 := c1_territory_precedence skyshowtime_headers none
    (some "idsession=xyz; hterr=GB")
    (some { activeterritory := some "XX", language := some "en", territory := some "RS" })
  have h3 := c1_territory_precedence skyshowtime_headers none none
    (some { activeterritory := some "XX", language := some "en", territory := some "RS" })
  exact ⟨(h1.1 "PT" rfl).1, (h1.1 "PT" rfl).2 _ rfl rfl,
    h2.2.1 "idsession=xyz; hterr=GB" "GB" rfl rfl (by decide),
    h3.2.2 _ rfl rfl (Or.inl rfl)⟩

theorem isEmpty_false_of_ne {u : String} (h : u ≠ "") : u.isEmpty = false := by
  cases he : u.isEmpty
  · rfl
  · exact absurd ((String.isEmpty_iff u).mp he) h

/-- C3 counterexample: the claim's fallback priority and thumb mirroring
are order-dependent, contrary to the claim.  With a `nonTitleArt34` image
listed before a `titleArt34` image, the poster resolves to the 4:3
non-title image although the higher-priority 4:3 title-art is present;
and with a `titleArt34` listed before a `titleArt169`, the thumb (no
`scene169` supplied) keeps the 4:3 url and does not mirror the final
16:9 poster. -/
theorem c3_get_art_counterexample :
    (get_art [{ type_ := "nonTitleArt34", url := "a?language=x" },
              { type_ := "titleArt34", url := "b?language=x" }]).poster
      = some "a/400?language=x"
    ∧ (get_art [{ type_ := "nonTitleArt34", url := "a?language=x" },
              { type_ := "titleArt34", url := "b?language=x" }]).poster
      ≠ some (image_url "b?language=x")
    ∧ (get_art [{ type_ := "titleArt34", url := "b?language=x" },
              { type_ := "titleArt169", url := "c?language=x" }]).poster
      = some (image_url "c?language=x")
    ∧ (get_art [{ type_ := "titleArt34", url := "b?language=x" },
              { type_ := "titleArt169", url := "c?language=x" }]).thumb
      ≠ (get_art [{ type_ := "titleArt34", url := "b?language=x" },
              { type_ := "titleArt169", url := "c?language=x" }]).poster := by
  refine ⟨by decide, by decide, by decide, by decide⟩

set_option maxHeartbeats 1600000 in
/-- C3 (amended): for image lists in which the images appear in priority
order (16:9 title-art first, then 4:3 title-art, then 4:3 non-title-art,
then the explicit `scene169` thumb), each with a non-falsy rewritten url,
`get_art` resolves the poster as the 16:9 title-art when present,
otherwise the 4:3 title-art, otherwise the 4:3 non-title-art, each
substitution only when every higher-priority source is absent; and the
thumb equals the explicit `scene169` image when supplied and otherwise
mirrors the resolved poster.  (For other list orders the fallback can
be violated — see the counterexample.) -/
theorem c3_get_art_priority (t169 t34 nt34 sc : Option String)
    (h169 : ∀ u, t169 = some u → image_url u ≠ "")
    (h34 : ∀ u, t34 = some u → image_url u ≠ "")
    (hnt : ∀ u, nt34 = some u → image_url u ≠ "")
    (hsc : ∀ u, sc = some u → image_url u ≠ "") :
    (get_art (optImg "titleArt169" t169 ++ optImg "titleArt34" t34 ++
        optImg "nonTitleArt34" nt34 ++ optImg "scene169" sc)).poster
      = (t169.or (t34.or nt34)).map image_url
    ∧ (get_art (optImg "titleArt169" t169 ++ optImg "titleArt34" t34 ++
        optImg "nonTitleArt34" nt34 ++ optImg "scene169" sc)).thumb
      = (sc.map image_url).or ((t169.or (t34.or nt34)).map image_url) := by
  rcases t169 with _ | a <;> rcases t34 with _ | b <;>
    rcases nt34 with _ | c <;> rcases sc with _ | d
  · constructor <;> simp [optImg, get_art, get_art_step, truthy, Option.or]
  · have e4 := isEmpty_false_of_ne (hsc d rfl)
    constructor <;> simp [optImg, get_art, get_art_step, truthy, e4, Option.or]
  · have e3 := isEmpty_false_of_ne (hnt c rfl)
    constructor <;> simp [optImg, get_art, get_art_step, truthy, e3, Option.or]
  · have e3 := isEmpty_false_of_ne (hnt c rfl)
    have e4 := isEmpty_false_of_ne (hsc d rfl)
    constructor <;> simp [optImg, get_art, get_art_step, truthy, e3, e4, Option.or]
  · have e2 := isEmpty_false_of_ne (h34 b rfl)
    constructor <;> simp [optImg, get_art, get_art_step, truthy, e2, Option.or]
  · have e2 := isEmpty_false_of_ne (h34 b rfl)
    have e4 := isEmpty_false_of_ne (hsc d rfl)
    constructor <;> simp [optImg, get_art, get_art_step, truthy, e2, e4, Option.or]
  · have e2 := isEmpty_false_of_ne (h34 b rfl)
    have e3 := isEmpty_false_of_ne (hnt c rfl)
    constructor <;> simp [optImg, get_art, get_art_step, truthy, e2, e3, Option.or]
  · have e2 := isEmpty_false_of_ne (h34 b rfl)
    have e3 := isEmpty_false_of_ne (hnt c rfl)
    have e4 := isEmpty_false_of_ne (hsc d rfl)
    constructor <;> simp [optImg, get_art, get_art_step, truthy, e2, e3, e4, Option.or]
  · have e1 := isEmpty_false_of_ne (h169 a rfl)
    constructor <;> simp [optImg, get_art, get_art_step, truthy, e1, Option.or]
  · have e1 := isEmpty_false_of_ne (h169 a rfl)
    have e4 := isEmpty_false_of_ne (hsc d rfl)
    constructor <;> simp [optImg, get_art, get_art_step, truthy, e1, e4, Option.or]
  · have e1 := isEmpty_false_of_ne (h169 a rfl)
    have e3 := isEmpty_false_of_ne (hnt c rfl)
    constructor <;> simp [optImg, get_art, get_art_step, truthy, e1, e3, Option.or]
  · have e1 := isEmpty_false_of_ne (h169 a rfl)
    have e3 := isEmpty_false_of_ne (hnt c rfl)
    have e4 := isEmpty_false_of_ne (hsc d rfl)
    constructor <;> simp [optImg, get_art, get_art_step, truthy, e1, e3, e4, Option.or]
  · have e1 := isEmpty_false_of_ne (h169 a rfl)
    have e2 := isEmpty_false_of_ne (h34 b rfl)
    constructor <;> simp [optImg, get_art, get_art_step, truthy, e1, e2, Option.or]
  · have e1 := isEmpty_false_of_ne (h169 a rfl)
    have e2 := isEmpty_false_of_ne (h34 b rfl)
    have e4 := isEmpty_false_of_ne (hsc d rfl)
    constructor <;> simp [optImg, get_art, get_art_step, truthy, e1, e2, e4, Option.or]
  · have e1 := isEmpty_false_of_ne (h169 a rfl)
    have e2 := isEmpty_false_of_ne (h34 b rfl)
    have e3 := isEmpty_false_of_ne (hnt c rfl)
    constructor <;> simp [optImg, get_art, get_art_step, truthy, e1, e2, e3, Option.or]
  · have e1 := isEmpty_false_of_ne (h169 a rfl)
    have e2 := isEmpty_false_of_ne (h34 b rfl)
    have e3 := isEmpty_false_of_ne (hnt c rfl)
    have e4 := isEmpty_false_of_ne (hsc d rfl)
    constructor <;> simp [optImg, get_art, get_art_step, truthy, e1, e2, e3, e4, Option.or]

/-- C3 witness: the spec's own example — an image set lacking 16:9 title
art but containing 4:3 non-title art resolves the poster to the 4:3
non-title image and the thumb mirrors the poster. -/
theorem c3_get_art_priority_witness :
    (get_art [{ type_ := "nonTitleArt34", url := "r?language=1" }]).poster
      = some "r/400?language=1"
    ∧ (get_art [{ type_ := "nonTitleArt34", url := "r?language=1" }]).thumb
      = some "r/400?language=1" := by
  have h := c3_get_art_priority none none (some "r?language=1") none
    (fun u h => Option.noConfusion h) (fun u h => Option.noConfusion h)
    (fun u h => by cases h; decide) (fun u h => Option.noConfusion h)
  exact ⟨h.1, h.2⟩

/-- C4: an item produced by `parse_catalog` or `parse_item` carries its
`segments` and `subscribed` fields exactly when the source payload
carries `contentSegments`; the flag is the `is_subscribed` overlap test,
and `is_subscribed` is true exactly when the item's segment list and the
session's entitlement set share at least one name. -/
theorem c4_subscribed_overlap :
    (∀ my t2s e t, parse_catalog_entry my t2s e = some t →
        t.segments = e.contentSegments
        ∧ t.subscribed = e.contentSegments.map (is_subscribed my))
    ∧ (∀ my e,
        (parse_item my e).segments = e.attributes.contentSegments
        ∧ (parse_item my e).subscribed
            = e.attributes.contentSegments.map (is_subscribed my))
    ∧ (∀ my l, is_subscribed my l = true ↔ ∃ s, s ∈ my ∧ s ∈ l) := by
  refine ⟨?_, ?_, ?_⟩
  · intro my t2s e t h
    simp only [parse_catalog_entry] at h
    repeat' split at h
    all_goals first
      | exact Option.noConfusion h
      | (cases h; exact ⟨rfl, rfl⟩)
  · intro my e
    constructor <;> simp [parse_item]
  · intro my l
    simp [is_subscribed, List.any_eq_true]

/-- C4 witness: the spec's example — an item with segments `{X, Y}` is
subscribed against the session set `{Y, Z}`, not subscribed against
`{A}`, and an item without segments carries no `subscribed` field; the
same holds through `parse_catalog`'s entry parser. -/
theorem c4_subscribed_overlap_witness :
    (parse_item ["Y", "Z"]
      { id := "i1", type_ := "ASSET/PROGRAMME",
        attributes := { slug := "/m", title := "M",
                        contentSegments := some ["X", "Y"] } }).subscribed = some true
    ∧ (parse_item ["A"]
      { id := "i1", type_ := "ASSET/PROGRAMME",
        attributes := { slug := "/m", title := "M",
                        contentSegments := some ["X", "Y"] } }).subscribed = some false
    ∧ (parse_item ["Y", "Z"]
      { id := "i2", type_ := "ASSET/PROGRAMME",
        attributes := { slug := "/m", title := "M" } }).subscribed = none
    ∧ (parse_catalog_entry ["Y", "Z"] (fun _ _ => "") c4_centry).map Item.subscribed
        = some (some true) := by
  have h := c4_subscribed_overlap
  obtain ⟨t, ht⟩ : ∃ t, parse_catalog_entry ["Y", "Z"] (fun _ _ => "") c4_centry = some t :=
    ⟨_, rfl⟩
  refine ⟨(h.2.1 ["Y", "Z"] _).2.trans (by decide),
          (h.2.1 ["A"] _).2.trans (by decide),
          (h.2.1 ["Y", "Z"] _).2.trans rfl, ?_⟩
  rw [ht, Option.map_some']
  exact congrArg some ((h.1 ["Y", "Z"] (fun _ _ => "") c4_centry t ht).2.trans (by decide))

/-- C8: for a playable graph item, `parse_item` takes the content id from
the `HD` format entry when one exists (carrying its start-of-credits
marker, when present, into the bookmark metadata), otherwise from the
`SD` entry (no start-of-credits), and leaves the item without a playable
content id when neither entry nor the `formats` map exists. -/
theorem c8_format_preference (my : List String) (e : RawGraphItem)
    (hp : e.type_ ∈ item_playable_types) :
    (∀ f h, e.attributes.formats = some f → f.hd = some h →
        (parse_item my e).content_id = some h.contentId
        ∧ (parse_item my e).bookmark_startOfCredits = h.startOfCredits)
    ∧ (∀ f s, e.attributes.formats = some f → f.hd = none → f.sd = some s →
        (parse_item my e).content_id = some s.contentId
        ∧ (parse_item my e).bookmark_startOfCredits = none)
    ∧ (e.attributes.formats = none →
        (parse_item my e).content_id = none
        ∧ (parse_item my e).bookmark_startOfCredits = none)
    ∧ (∀ f, e.attributes.formats = some f → f.hd = none → f.sd = none →
        (parse_item my e).content_id = none) := by
  refine ⟨?_, ?_, ?_, ?_⟩
  · intro f h hf hhd
    constructor <;> simp [parse_item, hp, hf, hhd]
  · intro f s hf hhd hsd
    constructor <;> simp [parse_item, hp, hf, hhd, hsd]
  · intro hf
    constructor <;> simp [parse_item, hp, hf]
  · intro f hf hhd hsd
    simp [parse_item, hp, hf, hhd, hsd]

/-- C8 witness: with both formats the `HD` content id and start-of-credits
win; with only `SD` its content id is used; without formats there is no
content id. -/
theorem c8_format_preference_witness :
    (parse_item [] c8_hd_item).content_id = some "HDID"
    ∧ (parse_item [] c8_hd_item).bookmark_startOfCredits = some 3500
    ∧ (parse_item [] c8_sd_item).content_id = some "SDID2"
    ∧ (parse_item [] c8_sd_item).bookmark_startOfCredits = none
    ∧ (parse_item [] c8_bare_item).content_id = none := by
  have h1 := c8_format_preference [] c8_hd_item (by decide)
  have h2 := c8_format_preference [] c8_sd_item (by decide)
  have h3 := c8_format_preference [] c8_bare_item (by decide)
  exact ⟨(h1.1 _ _ rfl rfl).1, (h1.1 _ _ rfl rfl).2,
    (h2.2.1 _ _ rfl rfl rfl).1, (h2.2.1 _ _ rfl rfl rfl).2, (h3.2.2.1 rfl).1⟩

theorem epgLookup_dictInsert {α : Type} (d : List (String × α)) (k key : String) (v : α) :
    epgLookup (dictInsert d k v) key = if key = k then some v else epgLookup d key := by
  induction d with
  | nil =>
    by_cases hk : key = k
    · subst hk; simp [dictInsert, epgLookup]
    · have : ¬ k = key := fun h => hk h.symm
      simp [dictInsert, epgLookup, hk, this]
  | cons kv rest ih =>
    obtain ⟨k₂, v₂⟩ := kv
    by_cases h2 : k₂ = k
    · subst h2
      by_cases hk : key = k₂
      · subst hk; simp [dictInsert, epgLookup]
      · have : ¬ k₂ = key := fun h => hk h.symm
        simp [dictInsert, epgLookup, hk, this]
    · by_cases hk : k₂ = key
      · subst hk
        by_cases hkk : k₂ = k
        · exact absurd hkk h2
        · simp [dictInsert, epgLookup, h2, hkk]
      · simp [dictInsert, epgLookup, h2, hk, ih]

theorem get_epg_entries (t2s1 : Int → String) (t2s : Int → String → String)
    (cs : List RawChannel) :
    ∀ (acc : List (String × List EpgEntry)) (key : String) (v : List EpgEntry),
      epgLookup (cs.foldl (fun res c =>
          dictInsert res c.serviceKey (c.scheduleItems.map (epg_entry t2s1 t2s))) acc) key
        = some v →
      epgLookup acc key = some v
      ∨ ∃ c, c ∈ cs ∧ v = c.scheduleItems.map (epg_entry t2s1 t2s) := by
  induction cs with
  | nil => intro acc key v h; exact Or.inl h
  | cons c cs ih =>
    intro acc key v h
    rw [List.foldl_cons] at h
    rcases ih _ _ _ h with hacc | ⟨c₂, hc₂, hv⟩
    · rw [epgLookup_dictInsert] at hacc
      by_cases hk : key = c.serviceKey
      · rw [if_pos hk] at hacc
        cases hacc
        exact Or.inr ⟨c, List.mem_cons_self c cs, rfl⟩
      · rw [if_neg hk] at hacc
        exact Or.inl hacc
    · exact Or.inr ⟨c₂, List.mem_cons_of_mem c hc₂, hv⟩

theorem get_epg_haskey (t2s1 : Int → String) (t2s : Int → String → String)
    (cs : List RawChannel) :
    ∀ (acc : List (String × List EpgEntry)) (key : String),
      ((∃ c, c ∈ cs ∧ c.serviceKey = key) ∨ (epgLookup acc key).isSome) →
      (epgLookup (cs.foldl (fun res c =>
          dictInsert res c.serviceKey (c.scheduleItems.map (epg_entry t2s1 t2s))) acc)
        key).isSome := by
  induction cs with
  | nil =>
    intro acc key h
    rcases h with ⟨c, hc, _⟩ | h
    · exact absurd hc (List.not_mem_nil c)
    · exact h
  | cons c cs ih =>
    intro acc key h
    rw [List.foldl_cons]
    apply ih
    rcases h with ⟨c₂, hc₂, hk⟩ | hacc
    · rcases List.mem_cons.mp hc₂ with rfl | hmem
      · right
        rw [epgLookup_dictInsert, if_pos hk.symm]
        rfl
      · exact Or.inl ⟨c₂, hmem, hk⟩
    · right
      rw [epgLookup_dictInsert]
      by_cases hk : key = c.serviceKey
      · rw [if_pos hk]; rfl
      · rw [if_neg hk]; exact hacc

theorem find?_first {α : Type} (p : α → Bool) :
    ∀ (l : List α) (a : α), l.find? p = some a →
      p a = true ∧ ∃ i, ∃ h : i < l.length, l.get ⟨i, h⟩ = a
        ∧ ∀ j (hj : j < l.length), j < i → p (l.get ⟨j, hj⟩) = false := by
  intro l
  induction l with
  | nil => intro a h; exact Option.noConfusion h
  | cons x xs ih =>
    intro a h
    cases hx : p x with
    | true =>
      rw [List.find?_cons_of_pos _ hx] at h
      cases h
      refine ⟨hx, 0, by simp, rfl, ?_⟩
      intro j hj hj0
      exact absurd hj0 (Nat.not_lt_zero j)
    | false =>
      rw [List.find?_cons_of_neg _ (by simp [hx])] at h
      obtain ⟨hp, i, hi, he, hpre⟩ := ih a h
      refine ⟨hp, i + 1, by simpa using Nat.succ_lt_succ hi, he, ?_⟩
      intro j hj hji
      cases j with
      | zero => exact hx
      | succ j₂ =>
        exact hpre j₂ (Nat.lt_of_succ_lt_succ hj) (Nat.lt_of_succ_lt_succ hji)

/-- C2 counterexample: the claim quantifies over every timestamp, but a
zero timestamp is falsy in Python and `find_program_epg` replaces it
with the current clock time (sky.py line 941).  In a guide whose only
entry spans `[-10, 10]` — an interval containing 0 — the lookup at
timestamp 0 with clock 1000 returns the not-found result instead of that
entry. -/
theorem c2_timestamp_zero_counterexample :
    find_program_epg (get_epg tf1 tf2 c2_zero_guide) "ch" (some 0) 1000 = Except.ok none
    ∧ epgLookup (get_epg tf1 tf2 c2_zero_guide) "ch" = some [c2_zero_entry]
    ∧ c2_zero_entry.start ≤ 0 ∧ (0 : Int) ≤ c2_zero_entry.stop := by
  exact ⟨rfl, rfl, by decide, by decide⟩

/-- C2 (amended): for every guide index built by `get_epg`, channel key
present in it, and nonzero timestamp `t` (a zero or omitted timestamp is
Python-falsy and is replaced by the current clock time),
`find_program_epg` returns, without error, the first entry in stored
order whose `[start, end]` interval contains `t` inclusively at both
bounds — where every stored entry satisfies `end = start +
durationSeconds` — and the explicit not-found result `none` exactly when
no entry of that channel contains `t`. -/
theorem c2_find_program_epg (t2s1 : Int → String) (t2s : Int → String → String)
    (raw : RawEpg) (key : String) (t now : Int) (entries : List EpgEntry)
    (ht : t ≠ 0)
    (hk : epgLookup (get_epg t2s1 t2s raw) key = some entries) :
    find_program_epg (get_epg t2s1 t2s raw) key (some t) now
      = Except.ok (entries.find? (fun p => decide (p.start ≤ t) && decide (t ≤ p.stop)))
    ∧ (entries.find? (fun p => decide (p.start ≤ t) && decide (t ≤ p.stop)) = none
        ↔ ∀ p ∈ entries, ¬ (p.start ≤ t ∧ t ≤ p.stop))
    ∧ (∀ p, entries.find? (fun q => decide (q.start ≤ t) && decide (t ≤ q.stop)) = some p →
        (p.start ≤ t ∧ t ≤ p.stop)
        ∧ ∃ i, ∃ h : i < entries.length, entries.get ⟨i, h⟩ = p
            ∧ ∀ j (hj : j < entries.length), j < i →
                ¬ ((entries.get ⟨j, hj⟩).start ≤ t ∧ t ≤ (entries.get ⟨j, hj⟩).stop))
    ∧ (∀ p ∈ entries, p.stop = p.start + p.duration) := by
  refine ⟨?_, ?_, ?_, ?_⟩
  · simp [find_program_epg, ht, hk]
  · rw [List.find?_eq_none]
    constructor
    · intro h p hp
      have := h p hp
      simpa using this
    · intro h p hp
      simpa using h p hp
  · intro p hp
    obtain ⟨hpred, i, hi, he, hpre⟩ := find?_first _ entries p hp
    refine ⟨by simpa using hpred, i, hi, he, ?_⟩
    intro j hj hji
    have := hpre j hj hji
    simpa using this
  · intro p hp
    rcases get_epg_entries t2s1 t2s raw.channels [] key entries hk with h0 | ⟨c, _, hv⟩
    · exact Option.noConfusion h0
    · subst hv
      obtain ⟨i, _, rfl⟩ := List.mem_map.mp hp
      rfl

/-- C2 witness: in the concrete guide, the entry `[1000, 1060]` is found
at timestamps 1000 and 1060 inclusive (1060 also bounds the adjacent
`[1060, 1120]` entry, and the first in stored order wins), while 999
yields the not-found result `none` rather than an error. -/
theorem c2_find_program_epg_witness :
    find_program_epg (get_epg tf1 tf2 epg_guide) "ch1" (some 1000) 0
      = Except.ok (some c2_entry_a)
    ∧ find_program_epg (get_epg tf1 tf2 epg_guide) "ch1" (some 1060) 0
      = Except.ok (some c2_entry_a)
    ∧ find_program_epg (get_epg tf1 tf2 epg_guide) "ch1" (some 999) 0
      = Except.ok none := by
  have hA := c2_find_program_epg tf1 tf2 epg_guide "ch1" 1000 0
    [c2_entry_a, c2_entry_b] (by decide) rfl
  have hB := c2_find_program_epg tf1 tf2 epg_guide "ch1" 1060 0
    [c2_entry_a, c2_entry_b] (by decide) rfl
  have hC := c2_find_program_epg tf1 tf2 epg_guide "ch1" 999 0
    [c2_entry_a, c2_entry_b] (by decide) rfl
  exact ⟨hA.1.trans (congrArg Except.ok (by decide)),
         hB.1.trans (congrArg Except.ok (by decide)),
         hC.1.trans (congrArg Except.ok (by decide))⟩

/-- C10: `find_program_epg` raises a `KeyError` for a channel key absent
from the index; its not-found result `none` occurs only when the key is
present but no schedule interval contains the (nonzero) timestamp; and
for every channel produced by `get_channels` from the same guide fetch,
the key is present, so the lookup returns without error — the join in
`get_channels_with_epg` is safe. -/
theorem c10_epg_key_safety :
    (∀ (epg : List (String × List EpgEntry)) key timestamp now,
        epgLookup epg key = none →
        find_program_epg epg key timestamp now = Except.error "KeyError")
    ∧ (∀ (epg : List (String × List EpgEntry)) key t now, t ≠ 0 →
        find_program_epg epg key (some t) now = Except.ok none →
        ∃ entries, epgLookup epg key = some entries
          ∧ ∀ p ∈ entries, ¬ (p.start ≤ t ∧ t ≤ p.stop))
    ∧ (∀ (t2s1 : Int → String) (t2s : Int → String → String) (raw : RawEpg)
        (ch : ChannelItem), ch ∈ get_channels raw → ∀ timestamp now,
        ∃ r, find_program_epg (get_epg t2s1 t2s raw) ch.service_key timestamp now
          = Except.ok r) := by
  refine ⟨?_, ?_, ?_⟩
  · intro epg key timestamp now h
    simp [find_program_epg, h]
  · intro epg key t now ht h
    rw [find_program_epg] at h
    rcases hk : epgLookup epg key with _ | entries
    · rw [hk] at h
      exact Except.noConfusion h
    · rw [hk] at h
      refine ⟨entries, rfl, ?_⟩
      simp only [ht, if_neg, Except.ok.injEq] at h
      intro p hp
      have h2 := List.find?_eq_none.mp h p hp
      simpa using h2
  · intro t2s1 t2s raw ch hch timestamp now
    obtain ⟨c, hc, rfl⟩ := List.mem_map.mp hch
    have hkey : (epgLookup (get_epg t2s1 t2s raw) c.serviceKey).isSome := by
      exact get_epg_haskey t2s1 t2s raw.channels [] c.serviceKey (Or.inl ⟨c, hc, rfl⟩)
    rcases hk : epgLookup (get_epg t2s1 t2s raw) c.serviceKey with _ | entries
    · rw [hk] at hkey
      exact absurd hkey (by simp)
    · cases hr : find_program_epg (get_epg t2s1 t2s raw) c.serviceKey timestamp now with
      | ok r => exact ⟨r, rfl⟩
      | error e => simp [find_program_epg, hk] at hr

/-- C10 witness: a key not in the concrete guide raises `KeyError`; the
channel built by `get_channels` from the same guide looks up without
error; and an off-air timestamp yields `none` with every interval of
the channel avoiding it. -/
theorem c10_epg_key_safety_witness :
    find_program_epg (get_epg tf1 tf2 epg_guide) "nochannel" (some 5) 99
      = Except.error "KeyError"
    ∧ (∃ r, find_program_epg (get_epg tf1 tf2 epg_guide) "ch1" (some 5) 99
        = Except.ok r)
    ∧ (∃ entries, epgLookup (get_epg tf1 tf2 epg_guide) "ch1" = some entries
        ∧ ∀ p ∈ entries, ¬ (p.start ≤ 5 ∧ (5 : Int) ≤ p.stop)) := by
  have h := c10_epg_key_safety
  refine ⟨h.1 _ "nochannel" (some 5) 99 rfl, ?_, h.2.1 _ "ch1" 5 99 (by decide) rfl⟩
  exact h.2.2 tf1 tf2 epg_guide c10_channel_item (by decide) (some 5) 99

/-- C6 counterexample: the claim says `login` always reports its outcome
as a `(success, body)` pair, but a body that parses with a `properties`
dict whose `eventType` is not `'success'` (a normal upstream login
failure) makes the function fall off the end of the `try` block: it
returns Python `None`, not a pair, and performs no cookie write. -/
theorem c6_login_counterexample :
    login [] "skyshowtime" "ck" "body" c6_failed_body = (LoginReturn.noneReturn, [])
    ∧ (login [] "skyshowtime" "ck" "body" c6_failed_body).1
        ≠ LoginReturn.pair false "body"
    ∧ (login [] "skyshowtime" "ck" "body" c6_failed_body).1
        ≠ LoginReturn.pair true "body" := by
  exact ⟨rfl, by decide, by decide⟩

/-- C6 (amended): `login` returns `(true, body)` and persists the cookie
string (no expiry) exactly on the success-marker path; it returns
`(false, body)` when the body fails to parse, or when accessing the
marker raises (`data` or its `properties` value is not a dict); but when
the body parses as a dict whose `properties` dict lacks the success
marker, it returns Python `None` instead of a pair, leaving the store
untouched. -/
theorem c6_login_contract (st : CacheStore) (pldir cookie_string content : String)
    (parsed : Except String JValue) :
    (∀ err, parsed = .error err →
        login st pldir cookie_string content parsed = (.pair false content, st))
    ∧ (∀ fields props, parsed = .ok (.obj fields) →
        pyLookup fields "properties" = some (.obj props) →
        (isSuccessStr (pyLookup props "eventType") = true →
          login st pldir cookie_string content parsed
            = (.pair true content,
               cache_save st (pldir ++ "/" ++ "cookie.conf") 0 (.text cookie_string)))
        ∧ (isSuccessStr (pyLookup props "eventType") = false →
          login st pldir cookie_string content parsed = (.noneReturn, st)))
    ∧ (∀ fields, parsed = .ok (.obj fields) →
        (∀ props, (pyLookup fields "properties").getD (JValue.arr []) ≠ JValue.obj props) →
        login st pldir cookie_string content parsed = (.pair false content, st))
    ∧ (∀ v, parsed = .ok v → (∀ fields, v ≠ JValue.obj fields) →
        login st pldir cookie_string content parsed = (.pair false content, st))
    ∧ (∀ fields props, parsed = .ok (.obj fields) →
        pyLookup fields "properties" = some (.obj props) →
        isSuccessStr (pyLookup props "eventType") = true →
        cache_load (login st pldir cookie_string content parsed).2
            (pldir ++ "/" ++ "cookie.conf") none 0 = some (.text cookie_string)) := by
  refine ⟨?_, ?_, ?_, ?_, ?_⟩
  · intro err h
    subst h
    rfl
  · intro fields props hp hprops
    subst hp
    constructor <;> intro hs <;> simp [login, hprops, hs]
  · intro fields hp hnot
    subst hp
    rcases hg : (pyLookup fields "properties").getD (JValue.arr []) with _ | b | n | s | xs | flds
    · simp [login, hg]
    · simp [login, hg]
    · simp [login, hg]
    · simp [login, hg]
    · simp [login, hg]
    · exact absurd hg (hnot flds)
  · intro v hp hnotobj
    subst hp
    rcases v with _ | b | n | s | xs | flds
    · rfl
    · rfl
    · rfl
    · rfl
    · rfl
    · exact absurd rfl (hnotobj flds)
  · intro fields props hp hprops hs
    subst hp
    simp [login, hprops, hs, cache_load, storeLookup_save]

/-- C6 witness: a parsed success body yields `(true, body)` with the
cookie persisted and readable back; an unparseable body yields
`(false, body)` with the store untouched. -/
theorem c6_login_contract_witness :
    login [] "skyshowtime" "ck=1" "rawbody" c6_success_body
      = (LoginReturn.pair true "rawbody",
         cache_save [] ("skyshowtime" ++ "/" ++ "cookie.conf") 0 (.text "ck=1"))
    ∧ login [] "skyshowtime" "ck=1" "rawbody" (Except.error "Expecting value")
      = (LoginReturn.pair false "rawbody", [])
    ∧ cache_load (login [] "skyshowtime" "ck=1" "rawbody" c6_success_body).2
        ("skyshowtime" ++ "/" ++ "cookie.conf") none 0 = some (.text "ck=1") := by
  have h := c6_login_contract [] "skyshowtime" "ck=1" "rawbody" c6_success_body
  have h2 := c6_login_contract [] "skyshowtime" "ck=1" "rawbody"
    (Except.error "Expecting value")
  exact ⟨(h.2.1 _ _ rfl rfl).1 rfl, h2.1 _ rfl, h.2.2.2.2 _ _ rfl rfl rfl⟩
